import Mathlib

/-!
Verification of the streaming core of the homebridge-plugin-eufy-security
repository (src/platform.ts, class EufyCameraStreamingDelegate, together
with the fixed literal videoConfig of that class).

The embedding below translates the source functions directly:
  determineResolution  (platform.ts lines 577 to 610)
  prepareStream        (platform.ts lines 652 to 689)
  startStream          (platform.ts lines 691 to 842)
  stopStream           (platform.ts lines 844 to 877)
and the two JS object maps pendingSessions / ongoingSessions.

JS objects keyed by session id are modelled as association lists whose
set operation removes every older binding for the key, matching the
unique-key semantics of JS property assignment.  The value `undefined`
of an unset record field is modelled as Option.none.  Node Buffers are
byte lists; Buffer.concat is list append and toString with base64 is
implemented below.  Asynchronous steps (the upstream HTTP calls and the
promise continuations) are modelled as explicit task functions that take
the outcome of the awaited call as a parameter; a missing rejection
handler in the source therefore appears as the identity on the state.
-/

/-- Association-list lookup, mirroring a JS object property read. -/
def storeGet {α : Type} (k : String) : List (String × α) → Option α
  | [] => none
  | p :: rest => if p.1 = k then some p.2 else storeGet k rest

/-- JS object property assignment: the key ends up bound exactly once. -/
def storeSet {α : Type} (k : String) (v : α) (s : List (String × α)) : List (String × α) :=
  (k, v) :: s.filter (fun p => !decide (p.1 = k))

/-- JS delete of an object property. -/
def storeDel {α : Type} (k : String) (s : List (String × α)) : List (String × α) :=
  s.filter (fun p => !decide (p.1 = k))

/-- Whether the store has a binding for the key. -/
def storeHas {α : Type} (k : String) (s : List (String × α)) : Bool :=
  (storeGet k s).isSome

/-- Number of bindings carrying the key. -/
def countKey {α : Type} (k : String) (s : List (String × α)) : Nat :=
  (s.filter (fun p => decide (p.1 = k))).length

theorem storeGet_storeSet_self {α : Type} (k : String) (v : α) (s : List (String × α)) :
    storeGet k (storeSet k v s) = some v := by
  simp [storeGet, storeSet]

theorem storeGet_filter_ne {α : Type} (k k' : String) (h : k' ≠ k) (s : List (String × α)) :
    storeGet k' (s.filter (fun p => !decide (p.1 = k))) = storeGet k' s := by
  have hkk : ¬(k = k') := fun e => h e.symm
  induction s with
  | nil => rfl
  | cons p rest ih =>
    by_cases hk : p.1 = k
    · simp [storeGet, List.filter_cons, hk, hkk, ih]
    · by_cases hk' : p.1 = k'
      · simp [storeGet, List.filter_cons, hk, hk', h]
      · simp [storeGet, List.filter_cons, hk, hk', ih]

theorem storeGet_storeSet_ne {α : Type} (k k' : String) (v : α) (h : k' ≠ k)
    (s : List (String × α)) :
    storeGet k' (storeSet k v s) = storeGet k' s := by
  have hne : k ≠ k' := fun e => h e.symm
  simp [storeSet, storeGet, hne, storeGet_filter_ne k k' h s]

theorem storeGet_storeDel_self {α : Type} (k : String) (s : List (String × α)) :
    storeGet k (storeDel k s) = none := by
  induction s with
  | nil => rfl
  | cons p rest ih =>
    by_cases hk : p.1 = k
    · simp [storeDel, List.filter_cons, hk] at ih ⊢
      exact ih
    · simp [storeDel, storeGet, List.filter_cons, hk] at ih ⊢
      exact ih

theorem storeGet_storeDel_ne {α : Type} (k k' : String) (h : k' ≠ k) (s : List (String × α)) :
    storeGet k' (storeDel k s) = storeGet k' s :=
  storeGet_filter_ne k k' h s

theorem storeDel_storeDel {α : Type} (k : String) (s : List (String × α)) :
    storeDel k (storeDel k s) = storeDel k s := by
  induction s with
  | nil => rfl
  | cons p rest ih =>
    by_cases hk : p.1 = k
    · simp [storeDel, List.filter_cons, hk] at ih ⊢
    · simp [storeDel, List.filter_cons, hk]

theorem countKey_storeSet {α : Type} (k : String) (v : α) (s : List (String × α)) :
    countKey k (storeSet k v s) = 1 := by
  have hnone : ∀ t : List (String × α),
      ((t.filter (fun p => !decide (p.1 = k))).filter (fun p => decide (p.1 = k))) = [] := by
    intro t
    induction t with
    | nil => rfl
    | cons p rest ih =>
      by_cases hk : p.1 = k
      · simp [List.filter_cons, hk] at ih ⊢
      · simp [List.filter_cons, hk]
  simp [countKey, storeSet, hnone]

theorem storeHas_storeSet_self {α : Type} (k : String) (v : α) (s : List (String × α)) :
    storeHas k (storeSet k v s) = true := by
  simp [storeHas, storeGet_storeSet_self]

theorem storeHas_storeSet_ne {α : Type} (k k' : String) (v : α) (h : k' ≠ k)
    (s : List (String × α)) :
    storeHas k' (storeSet k v s) = storeHas k' s := by
  simp [storeHas, storeGet_storeSet_ne k k' v h]

theorem storeHas_storeDel_self {α : Type} (k : String) (s : List (String × α)) :
    storeHas k (storeDel k s) = false := by
  simp [storeHas, storeGet_storeDel_self]

theorem storeHas_storeDel_ne {α : Type} (k k' : String) (h : k' ≠ k) (s : List (String × α)) :
    storeHas k' (storeDel k s) = storeHas k' s := by
  simp [storeHas, storeGet_storeDel_ne k k' h]

/-- The literal videoConfig object of EufyCameraStreamingDelegate, as a
parameter type so that the methods reading this.videoConfig become
functions of the configuration.  forceMax and maxBitrate are undefined
in the source literal, hence Booleans and defaults chosen to match
JS truthiness where the fields are tested. -/
structure VideoConfig where
  forceMax : Bool := false
  maxWidth : Int := 1280
  maxHeight : Int := 720
  videoFilter : String := "scale=1280:720"
  vcodec : String := "libx264"
  audio : Bool := false
  packetSize : Nat := 188
  debug : Bool := true

/-- The literal configuration value hard-coded in the class. -/
def defaultVideoConfig : VideoConfig := {}

/-- Result type of determineResolution. -/
structure ResolutionInfo where
  width : Int
  height : Int
  videoFilter : String
  deriving DecidableEq

/-- Single quote character, used inside the ffmpeg scale filter string. -/
def sQuote : String := (Char.ofNat 39).toString

/-- The filter literal pushed by determineResolution to force even
dimensions (source line 601). -/
def evenScaleFilter : String :=
  "scale=" ++ sQuote ++ "trunc(iw/2)*2" ++ sQuote ++ ":" ++ sQuote ++ "trunc(ih/2)*2" ++ sQuote

/-- The filter list produced by the JS expression
[].concat(this.videoConfig.videoFilter or []): with the string-typed
configured filter this is the empty list for a falsy string and a
singleton otherwise. -/
def configuredFilters (cfg : VideoConfig) : List String :=
  if cfg.videoFilter = "" then [] else [cfg.videoFilter]

/-- Width clamping of determineResolution (platform.ts lines 580 to
584): clamp down to the configured maximum when forceMax is set with a
truthy maximum or the request exceeds the maximum; snapshots are never
clamped. -/
def clampedWidth (cfg : VideoConfig) (reqWidth : Int) (isSnapshot : Bool) : Int :=
  if !isSnapshot ∧ ((cfg.forceMax ∧ cfg.maxWidth ≠ 0) ∨ reqWidth > cfg.maxWidth) then
    cfg.maxWidth
  else reqWidth

/-- Height clamping of determineResolution (platform.ts lines 585 to
588). -/
def clampedHeight (cfg : VideoConfig) (reqHeight : Int) (isSnapshot : Bool) : Int :=
  if !isSnapshot ∧ ((cfg.forceMax ∧ cfg.maxHeight ≠ 0) ∨ reqHeight > cfg.maxHeight) then
    cfg.maxHeight
  else reqHeight

/-- Filter list computation of determineResolution (platform.ts lines
591 to 603): drop a none sentinel from the configured filter list, and
append the even-dimension scale filter when no sentinel was present
and either dimension is positive. -/
def filterExpressionFor (cfg : VideoConfig) (width height : Int) : String :=
  let filters0 := configuredFilters cfg
  let hasNone := filters0.contains "none"
  let filters1 := if hasNone then filters0.erase "none" else filters0
  let filters2 :=
    if !hasNone ∧ (width > 0 ∨ height > 0) then filters1 ++ [evenScaleFilter] else filters1
  String.intercalate "," filters2

/-- determineResolution (platform.ts lines 577 to 610). -/
def determineResolution (cfg : VideoConfig) (reqWidth reqHeight : Int)
    (isSnapshot : Bool) : ResolutionInfo :=
  { width := clampedWidth cfg reqWidth isSnapshot
    height := clampedHeight cfg reqHeight isSnapshot
    videoFilter := filterExpressionFor cfg (clampedWidth cfg reqWidth isSnapshot)
      (clampedHeight cfg reqHeight isSnapshot) }

/-- Address family requested at negotiation time (PrepareStreamRequest
field addressVersion). -/
inductive AddressVersion
  | ipv4
  | ipv6
  deriving DecidableEq

/-- SessionInfo (platform.ts lines 489 to 505).  prepareStream builds
only a Partial value and casts it, so every field is optional here and
the fields never assigned by prepareStream stay none, exactly like the
undefined fields of the source object. -/
structure SessionInfo where
  address : Option String
  localAddress : Option String
  ipv6 : Option Bool
  videoPort : Option Nat
  videoReturnPort : Option Nat
  videoCryptoSuite : Option Nat
  videoSRTP : Option (List Nat)
  videoSSRC : Option Nat
  audioPort : Option Nat
  audioReturnPort : Option Nat
  audioCryptoSuite : Option Nat
  audioSRTP : Option (List Nat)
  audioSSRC : Option Nat
  deriving DecidableEq

/-- The video sub-record consumed from a PrepareStreamRequest. -/
structure PrepareVideoParams where
  port : Nat
  srtpCryptoSuite : Nat
  srtp_key : List Nat
  srtp_salt : List Nat
  deriving DecidableEq

/-- The fields of a PrepareStreamRequest consumed by prepareStream. -/
structure PrepareStreamRequest where
  sessionID : String
  targetAddress : String
  addressVersion : AddressVersion
  video : PrepareVideoParams
  deriving DecidableEq

/-- Video part of the PrepareStreamResponse. -/
structure PrepareVideoResponse where
  port : Nat
  ssrc : Nat
  srtp_key : List Nat
  srtp_salt : List Nat
  deriving DecidableEq

/-- PrepareStreamResponse as produced by prepareStream (audio omitted,
as in the source). -/
structure PrepareStreamResponse where
  address : String
  video : PrepareVideoResponse
  deriving DecidableEq

/-- The state of an FfmpegProcess handle is opaque to this module; the
launch arguments identify the spawned subprocess. -/
structure FfmpegHandle where
  args : String
  deriving DecidableEq

/-- Family passed to dgram createSocket. -/
inductive UdpFamily
  | udp4
  | udp6
  deriving DecidableEq

/-- The watchdog socket as created and bound by startStream. -/
structure SocketHandle where
  family : UdpFamily
  bindPort : Option Nat
  bindAddress : Option String
  deriving DecidableEq

/-- ActiveSession (platform.ts lines 508 to 513).  The timeout member
is absent until the first watchdog datagram arrives. -/
structure ActiveSession where
  mainProcess : Option FfmpegHandle
  returnProcess : Option FfmpegHandle
  timeoutSet : Bool
  socket : Option SocketHandle
  deriving DecidableEq

/-- The two session maps of EufyCameraStreamingDelegate. -/
structure DelegateState where
  pendingSessions : List (String × SessionInfo)
  ongoingSessions : List (String × ActiveSession)
  deriving DecidableEq

/-- Fresh delegate: both maps start as empty objects. -/
def initialDelegateState : DelegateState := { pendingSessions := [], ongoingSessions := [] }

/-- The Partial SessionInfo object literal built by prepareStream
(platform.ts lines 665 to 672): only address, videoPort,
videoCryptoSuite, videoSRTP and videoSSRC are assigned; localAddress,
ipv6, videoReturnPort and the audio fields remain undefined. -/
def pendingInfoOf (req : PrepareStreamRequest) (ssrc : Nat) : SessionInfo :=
  { address := some req.targetAddress
    localAddress := none
    ipv6 := none
    videoPort := some req.video.port
    videoReturnPort := none
    videoCryptoSuite := some req.video.srtpCryptoSuite
    videoSRTP := some (req.video.srtp_key ++ req.video.srtp_salt)
    videoSSRC := some ssrc
    audioPort := none
    audioReturnPort := none
    audioCryptoSuite := none
    audioSRTP := none
    audioSSRC := none }

/-- prepareStream (platform.ts lines 652 to 689).  The generated
synchronisation source and the local address resolved by
ip.address(public, addressVersion) are environment inputs, passed as
parameters.  The function stores the pending record under the session
id and returns the response handed to the callback. -/
def prepareStream (st : DelegateState) (req : PrepareStreamRequest) (ssrc : Nat)
    (currentAddress : String) : DelegateState × PrepareStreamResponse :=
  ({ st with
      pendingSessions := storeSet req.sessionID (pendingInfoOf req ssrc) st.pendingSessions },
   { address := currentAddress
     video :=
       { port := req.video.port
         ssrc := ssrc
         srtp_key := req.video.srtp_key
         srtp_salt := req.video.srtp_salt } })

/-- The base64 alphabet used by Buffer.toString. -/
def base64Chars : List Char :=
  "ABCDEFGHIJKLMNOPQRSTUVWXYZabcdefghijklmnopqrstuvwxyz0123456789+/".toList

/-- Character of the base64 alphabet at an index below 64. -/
def b64Char (n : Nat) : Char := base64Chars.getD n (Char.ofNat 65)

/-- Standard base64 of a byte list, as produced by Buffer.toString with
encoding base64 on the concatenated SRTP key and salt. -/
def bufToBase64 : List Nat → String
  | [] => ""
  | [a] =>
    String.mk [b64Char (a % 256 / 4), b64Char (a % 256 % 4 * 16)] ++ "=="
  | [a, b] =>
    String.mk [b64Char (a % 256 / 4), b64Char (a % 256 % 4 * 16 + b % 256 / 16),
      b64Char (b % 256 % 16 * 4)] ++ "="
  | a :: b :: c :: rest =>
    String.mk [b64Char (a % 256 / 4), b64Char (a % 256 % 4 * 16 + b % 256 / 16),
      b64Char (b % 256 % 16 * 4 + c % 256 / 64), b64Char (c % 256 % 64)] ++ bufToBase64 rest

/-- JS string interpolation of a possibly undefined string field. -/
def optStr : Option String → String
  | some s => s
  | none => "undefined"

/-- JS string interpolation of a possibly undefined numeric field. -/
def optNatStr : Option Nat → String
  | some n => toString n
  | none => "undefined"

/-- Buffer.toString with base64 on a possibly undefined buffer field.
For records created by prepareStream the buffer is always present; the
none branch is unreachable in every theorem below. -/
def optBufBase64 : Option (List Nat) → String
  | some b => bufToBase64 b
  | none => "undefined"

/-- Video fields of a StartStreamRequest consumed by startStream.  The
rtcp interval is the sub-second multiplier of the request, a rational
number of seconds. -/
structure StartVideoInfo where
  width : Int
  height : Int
  fps : Int
  max_bit_rate : Int
  pt : Nat
  rtcp_interval : ℚ
  mtu : Nat
  deriving DecidableEq

/-- Audio fields of a StartStreamRequest consumed by startStream. -/
structure StartAudioInfo where
  sample_rate : Nat
  max_bit_rate : Nat
  channel : Nat
  pt : Nat
  deriving DecidableEq

/-- The fields of a StartStreamRequest consumed by startStream. -/
structure StartStreamRequest where
  sessionID : String
  video : StartVideoInfo
  audio : StartAudioInfo
  deriving DecidableEq

/-- this.videoConfig.vcodec or libx264 (platform.ts line 704). -/
def vcodecOf (cfg : VideoConfig) : String :=
  if cfg.vcodec = "" then "libx264" else cfg.vcodec

/-- Encoder options chosen in platform.ts lines 706 to 709. -/
def encoderOptionsFor (vcodec : String) : Option String :=
  if vcodec = "libx264" then some "-preset ultrafast -tune zerolatency" else none

/-- The mtu constant of platform.ts line 705; the source comment there
reads: request.video.mtu is not used. -/
def mtuConst : Nat := 1316

/-- Resolution after the codec-copy override of platform.ts
lines 711 to 721. -/
def effectiveResolution (cfg : VideoConfig) (v : StartVideoInfo) : ResolutionInfo :=
  let r := determineResolution cfg v.width v.height false
  if vcodecOf cfg = "copy" then { width := 0, height := 0, videoFilter := "" } else r

/-- The video segment of the ffmpeg argument string (platform.ts
lines 729 to 742). -/
def videoArgsSection (cfg : VideoConfig) (url : String) (v : StartVideoInfo) : String :=
  "-i " ++ url ++
  " -an -sn -dn" ++
  " -codec:v " ++ vcodecOf cfg ++
  " -pix_fmt yuv420p" ++
  " -color_range mpeg" ++
  " -f rawvideo" ++
  (match encoderOptionsFor (vcodecOf cfg) with
   | some e => " " ++ e
   | none => "") ++
  (if (effectiveResolution cfg v).videoFilter.length > 0 then
     " -filter:v " ++ (effectiveResolution cfg v).videoFilter
   else "") ++
  " -payload_type " ++ toString v.pt

/-- The video stream segment of the ffmpeg argument string
(platform.ts lines 744 to 750).  The SRTP output suite is the literal
AES_CM_128_HMAC_SHA1_80 and the packet size is the mtu constant. -/
def videoStreamSection (info : SessionInfo) : String :=
  " -ssrc " ++ optNatStr info.videoSSRC ++
  " -f rtp" ++
  " -srtp_out_suite AES_CM_128_HMAC_SHA1_80" ++
  " -srtp_out_params " ++ optBufBase64 info.videoSRTP ++
  " srtp://" ++ optStr info.address ++ ":" ++ optNatStr info.videoPort ++
  "?rtcpport=" ++ optNatStr info.videoPort ++ "&pkt_size=" ++ toString mtuConst

/-- The audio segments of the ffmpeg argument string (platform.ts
lines 752 to 772), emitted only when audio is enabled in the
configuration. -/
def audioArgsSection (cfg : VideoConfig) (info : SessionInfo) (a : StartAudioInfo) : String :=
  if cfg.audio then
    " -vn -sn -dn" ++
    " -codec:a libfdk_aac" ++
    " -profile:a aac_eld" ++
    " -flags +global_header" ++
    " -f null" ++
    " -ar " ++ toString a.sample_rate ++ "k" ++
    " -b:a " ++ toString a.max_bit_rate ++ "k" ++
    " -ac " ++ toString a.channel ++
    " -payload_type " ++ toString a.pt ++
    " -ssrc " ++ optNatStr info.audioSSRC ++
    " -f rtp" ++
    " -srtp_out_suite AES_CM_128_HMAC_SHA1_80" ++
    " -srtp_out_params " ++ optBufBase64 info.audioSRTP ++
    " srtp://" ++ optStr info.address ++ ":" ++ optNatStr info.audioPort ++
    "?rtcpport=" ++ optNatStr info.audioPort ++ "&pkt_size=188"
  else ""

/-- The debug segment of the ffmpeg argument string (platform.ts
lines 774 to 776). -/
def debugArgsSection (cfg : VideoConfig) : String :=
  if cfg.debug then " -loglevel level+verbose" else ""

/-- The complete ffmpeg argument string built by startStream. -/
def ffmpegArgs (cfg : VideoConfig) (url : String) (info : SessionInfo)
    (req : StartStreamRequest) : String :=
  videoArgsSection cfg url req.video ++ videoStreamSection info ++
  audioArgsSection cfg info req.audio ++ debugArgsSection cfg

/-- Family handed to createSocket (platform.ts line 780): udp6 only for
a truthy ipv6 field, udp4 otherwise (also for the undefined field). -/
def socketFamilyOf (ipv6 : Option Bool) : UdpFamily :=
  if ipv6 = some true then UdpFamily.udp6 else UdpFamily.udp4

/-- Outcome of the promise continuation of startStream that runs after
the upstream url resolves and the settle delay elapses. -/
inductive StartOutcome
  | launched (sock : SocketHandle) (proc : FfmpegHandle)
  | threw
  deriving DecidableEq

/-- Socket of a launch outcome, if any. -/
def outcomeSocket : StartOutcome → Option SocketHandle
  | StartOutcome.launched sock _ => some sock
  | StartOutcome.threw => none

/-- The second then-continuation of startStream (platform.ts lines 702
to 841).  It reads this.pendingSessions at the session id: when the
record is absent the argument construction dereferences a field of
undefined (line 745) and the continuation aborts with a TypeError
before any resource is created or any store is mutated; the callback
is never invoked.  When the record exists, the watchdog socket is
created with the family derived from the stored ipv6 field, bound to
the stored videoReturnPort and localAddress, the ffmpeg process is
spawned with the built argument string, the active session is stored
and the pending record is deleted. -/
def startStreamContinuation (cfg : VideoConfig) (req : StartStreamRequest) (url : String)
    (st : DelegateState) : DelegateState × StartOutcome :=
  match storeGet req.sessionID st.pendingSessions with
  | none => (st, StartOutcome.threw)
  | some info =>
    let args := ffmpegArgs cfg url info req
    let sock : SocketHandle :=
      { family := socketFamilyOf info.ipv6
        bindPort := info.videoReturnPort
        bindAddress := info.localAddress }
    let act : ActiveSession :=
      { mainProcess := some { args := args }
        returnProcess := none
        timeoutSet := false
        socket := some sock }
    ({ pendingSessions := storeDel req.sessionID st.pendingSessions
       ongoingSessions := storeSet req.sessionID act st.ongoingSessions },
     StartOutcome.launched sock { args := args })

/-- Observable side effects of one task of the delegate. -/
inductive Effect
  | upstreamStartFeed
  | upstreamStopFeed
  | callbackError
  | callbackSuccess
  | socketBind (sock : SocketHandle)
  | spawnProcess (args : String)
  | clearTimer
  | closeSocket
  | stopMainProcess
  | stopReturnProcess
  deriving DecidableEq

/-- Result of the awaited upstream httpService.startStream call. -/
inductive UpstreamResult
  | resolved (url : String)
  | rejected
  deriving DecidableEq

/-- startStream (platform.ts lines 691 to 842) as a whole, given the
outcome of the upstream call.  The promise chain has no rejection
handler, so on a rejected upstream call nothing after the upstream
request happens: no callback, no store change.  On a resolved call the
continuation above runs after the one second settle delay. -/
def startStream (cfg : VideoConfig) (req : StartStreamRequest) (up : UpstreamResult)
    (st : DelegateState) : DelegateState × List Effect :=
  match up with
  | UpstreamResult.rejected => (st, [Effect.upstreamStartFeed])
  | UpstreamResult.resolved url =>
    match startStreamContinuation cfg req url st with
    | (st2, StartOutcome.threw) => (st2, [Effect.upstreamStartFeed])
    | (st2, StartOutcome.launched sock proc) =>
      (st2, [Effect.upstreamStartFeed, Effect.socketBind sock, Effect.spawnProcess proc.args])

/-- Count of error callback invocations among the effects of a task. -/
def countCallbackErrors (l : List Effect) : Nat :=
  (l.filter (fun e => decide (e = Effect.callbackError))).length

/-- stopStream (platform.ts lines 844 to 877), given whether the
upstream httpService.stopStream call resolved.  The upstream request is
always issued first; the local teardown runs in the then-continuation,
so a rejected upstream call skips it entirely (the chain has no catch
handler).  On success the active record, when present, has its timer
cleared, its socket closed and its processes stopped, each attempt
independent, then the ongoing record is deleted unconditionally; the
pending map is never touched. -/
def stopStream (sessionId : String) (upstreamOk : Bool) (hasCallback : Bool)
    (st : DelegateState) : DelegateState × List Effect :=
  if upstreamOk then
    let tearEffects :=
      match storeGet sessionId st.ongoingSessions with
      | some session =>
        (if session.timeoutSet then [Effect.clearTimer] else []) ++
        (match session.socket with
         | some _ => [Effect.closeSocket]
         | none => []) ++
        (match session.mainProcess with
         | some _ => [Effect.stopMainProcess]
         | none => []) ++
        (match session.returnProcess with
         | some _ => [Effect.stopReturnProcess]
         | none => [])
      | none => []
    ({ st with ongoingSessions := storeDel sessionId st.ongoingSessions },
     Effect.upstreamStopFeed :: tearEffects ++
       (if hasCallback then [Effect.callbackSuccess] else []))
  else
    (st, [Effect.upstreamStopFeed])

/-- Inactivity timeout in milliseconds set by the watchdog message
handler (platform.ts line 795): the rtcp interval of the request, a
value in seconds, times 2 times 1000. -/
def inactivityTimeoutMs (rtcpInterval : ℚ) : ℚ :=
  rtcpInterval * 2 * 1000

/-- Watchdog state: the absolute expiry instant of the pending
setTimeout, if one was ever armed, and the number of
forceStopStreamingSession requests issued so far.  No timer exists
before the first datagram arrives. -/
structure WatchdogState where
  deadline : Option ℚ
  forceStops : Nat

/-- Watchdog state before any datagram. -/
def watchdogInit : WatchdogState := { deadline := none, forceStops := 0 }

/-- Effect of one inbound datagram at absolute time t on the watchdog
(platform.ts lines 786 to 796): if an armed timer has already expired
by t, its callback has fired once, issuing exactly one
forceStopStreamingSession request; the handler then clears any pending
timer and arms a fresh one expiring after the inactivity timeout. -/
def wdStep (timeoutMs : ℚ) (st : WatchdogState) (t : ℚ) : WatchdogState :=
  match st.deadline with
  | none => { deadline := some (t + timeoutMs), forceStops := st.forceStops }
  | some d =>
    if d ≤ t then { deadline := some (t + timeoutMs), forceStops := st.forceStops + 1 }
    else { deadline := some (t + timeoutMs), forceStops := st.forceStops }

/-- Watchdog state after a finite trace of datagram arrival times. -/
def wdRun (timeoutMs : ℚ) (arrivals : List ℚ) : WatchdogState :=
  arrivals.foldl (wdStep timeoutMs) watchdogInit

/-- Total number of force stop requests ever issued when no further
datagram arrives after the trace: any still armed timer eventually
fires exactly once. -/
def wdTotalForceStops (timeoutMs : ℚ) (arrivals : List ℚ) : Nat :=
  (wdRun timeoutMs arrivals).forceStops +
    (if (wdRun timeoutMs arrivals).deadline.isSome then 1 else 0)

/-- Events whose continuations mutate the session stores, in the order
their event-loop tasks complete. -/
inductive Ev
  | prepare (req : PrepareStreamRequest) (ssrc : Nat) (addr : String)
  | startBody (cfg : VideoConfig) (req : StartStreamRequest) (url : String)
  | stopOk (sessionId : String)

/-- State transition of one completed event-loop task, built from the
operation functions above. -/
def stepEv (st : DelegateState) : Ev → DelegateState
  | Ev.prepare req ssrc addr => (prepareStream st req ssrc addr).1
  | Ev.startBody cfg req url => (startStreamContinuation cfg req url st).1
  | Ev.stopOk sessionId => (stopStream sessionId true false st).1

/-- Store state after a trace of completed tasks, from a fresh
delegate. -/
def runEvents (evs : List Ev) : DelegateState :=
  evs.foldl stepEv initialDelegateState

/-- Guard satisfied by a task when it is not a prepare for a session id
currently present in the ongoing map. -/
def prepareGuard (st : DelegateState) : Ev → Bool
  | Ev.prepare req _ _ => !(storeHas req.sessionID st.ongoingSessions)
  | _ => true

/-- A trace is guarded when every prepare task runs while its session
id is absent from the ongoing map. -/
def guardedTrace : DelegateState → List Ev → Bool
  | _, [] => true
  | st, e :: es => prepareGuard st e && guardedTrace (stepEv st e) es

/-- No session id is a key of both stores. -/
def exclusiveKeys (st : DelegateState) : Prop :=
  ∀ sessionId : String,
    storeHas sessionId st.pendingSessions = false ∨
    storeHas sessionId st.ongoingSessions = false

/-- Concrete fixtures used by witnesses and counterexamples. -/
def reqPrepA : PrepareStreamRequest :=
  { sessionID := "A"
    targetAddress := "10.0.0.5"
    addressVersion := AddressVersion.ipv4
    video := { port := 52000, srtpCryptoSuite := 0, srtp_key := [1, 2, 3], srtp_salt := [4, 5] } }

/-- A negotiation request for the IPv6 address family. -/
def reqPrepA6 : PrepareStreamRequest :=
  { sessionID := "A"
    targetAddress := "2001:db8::5"
    addressVersion := AddressVersion.ipv6
    video := { port := 52000, srtpCryptoSuite := 0, srtp_key := [1, 2, 3], srtp_salt := [4, 5] } }

/-- A start request for the same session. -/
def reqStartA : StartStreamRequest :=
  { sessionID := "A"
    video :=
      { width := 1280, height := 720, fps := 30, max_bit_rate := 299, pt := 99,
        rtcp_interval := 1 / 2, mtu := 1378 }
    audio := { sample_rate := 16, max_bit_rate := 24, channel := 1, pt := 110 } }

/-- Delegate state with one pending session A negotiated over IPv4. -/
def preparedStateA : DelegateState :=
  (prepareStream initialDelegateState reqPrepA 7 "192.168.1.2").1

/-- Delegate state with one pending session A negotiated over IPv6. -/
def preparedStateA6 : DelegateState :=
  (prepareStream initialDelegateState reqPrepA6 7 "fe80::1").1

theorem intercalate_nil_str (s : String) : String.intercalate s [] = "" := rfl

theorem filterExpressionFor_none (cfg : VideoConfig) (w h : Int)
    (hcfg : cfg.videoFilter = "none") : filterExpressionFor cfg w h = "" := by
  unfold filterExpressionFor configuredFilters
  rw [hcfg]
  simp [intercalate_nil_str]

theorem filterExpressionFor_other (cfg : VideoConfig) (w h : Int)
    (hne : cfg.videoFilter ≠ "none") (hpos : 0 < w ∨ 0 < h) :
    filterExpressionFor cfg w h
      = String.intercalate "," (configuredFilters cfg ++ [evenScaleFilter]) := by
  unfold filterExpressionFor
  by_cases h0 : cfg.videoFilter = ""
  · simp [configuredFilters, h0, hpos]
  · simp [configuredFilters, h0, hne, Ne.symm hne, hpos]

/-- C8: for every call to the resolution policy, a configured none
sentinel suppresses the even-rounding scale filter and is itself
removed, leaving an empty filter string; otherwise, whenever either
resulting dimension is positive, the produced filter string is the
configured filters joined with commas followed last by the
even-dimension rounding filter. -/
theorem determineResolution_filter_policy (cfg : VideoConfig) (reqWidth reqHeight : Int)
    (isSnapshot : Bool) :
    (cfg.videoFilter = "none" →
      (determineResolution cfg reqWidth reqHeight isSnapshot).videoFilter = "") ∧
    (cfg.videoFilter ≠ "none" →
      (0 < (determineResolution cfg reqWidth reqHeight isSnapshot).width ∨
       0 < (determineResolution cfg reqWidth reqHeight isSnapshot).height) →
      (determineResolution cfg reqWidth reqHeight isSnapshot).videoFilter
        = String.intercalate "," (configuredFilters cfg ++ [evenScaleFilter])) := by
  constructor
  · intro hcfg
    exact filterExpressionFor_none cfg _ _ hcfg
  · intro hne hpos
    exact filterExpressionFor_other cfg _ _ hne hpos

/-- Witness for C8: concrete evaluations of both branches of the
policy. -/
theorem determineResolution_filter_policy_witness :
    (determineResolution { videoFilter := "none" } 1920 1080 false).videoFilter = "" ∧
    (determineResolution defaultVideoConfig 1920 1080 false).videoFilter
      = String.intercalate "," (configuredFilters defaultVideoConfig ++ [evenScaleFilter]) :=
  ⟨(determineResolution_filter_policy { videoFilter := "none" } 1920 1080 false).1 rfl,
   (determineResolution_filter_policy defaultVideoConfig 1920 1080 false).2 (by decide)
     (Or.inl (by decide))⟩

/-- C4: prepareStream stores a new pending record under the request
session id whose secret material is the byte-wise concatenation of the
supplied key and salt, overwrites any prior pending record for that id
so that exactly one binding remains, leaves other session ids and the
ongoing map untouched, and replies with the request video port, the
key and salt verbatim and the freshly generated synchronisation
source. -/
theorem prepareStream_stores_and_echoes (st : DelegateState) (req : PrepareStreamRequest)
    (ssrc : Nat) (addr : String) :
    storeGet req.sessionID (prepareStream st req ssrc addr).1.pendingSessions
      = some (pendingInfoOf req ssrc) ∧
    (pendingInfoOf req ssrc).videoSRTP = some (req.video.srtp_key ++ req.video.srtp_salt) ∧
    countKey req.sessionID (prepareStream st req ssrc addr).1.pendingSessions = 1 ∧
    (∀ sid : String, sid ≠ req.sessionID →
      storeGet sid (prepareStream st req ssrc addr).1.pendingSessions
        = storeGet sid st.pendingSessions) ∧
    (prepareStream st req ssrc addr).1.ongoingSessions = st.ongoingSessions ∧
    (prepareStream st req ssrc addr).2
      = { address := addr
          video := { port := req.video.port, ssrc := ssrc,
                     srtp_key := req.video.srtp_key, srtp_salt := req.video.srtp_salt } } := by
  refine ⟨?_, rfl, ?_, ?_, rfl, rfl⟩
  · simp [prepareStream, storeGet_storeSet_self]
  · simp [prepareStream, countKey_storeSet]
  · intro sid hs
    simp [prepareStream, storeGet_storeSet_ne req.sessionID sid _ hs]

/-- Witness for C4: the record stored for session A holds the
concatenated key and salt, session B is untouched and exactly one
binding for A exists. -/
theorem prepareStream_stores_and_echoes_witness :
    storeGet "A" preparedStateA.pendingSessions = some (pendingInfoOf reqPrepA 7) ∧
    countKey "A" preparedStateA.pendingSessions = 1 ∧
    storeGet "B" preparedStateA.pendingSessions
      = storeGet "B" initialDelegateState.pendingSessions :=
  ⟨(prepareStream_stores_and_echoes initialDelegateState reqPrepA 7 "192.168.1.2").1,
   (prepareStream_stores_and_echoes initialDelegateState reqPrepA 7 "192.168.1.2").2.2.1,
   (prepareStream_stores_and_echoes initialDelegateState reqPrepA 7 "192.168.1.2").2.2.2.1 "B"
     (by decide)⟩

/-- Delegate state with one active session A, produced by a completed
start on the prepared state. -/
def activeStateA : DelegateState :=
  (startStreamContinuation defaultVideoConfig reqStartA "rtsp://cam/live" preparedStateA).1

/-- Counterexample to C1: with a stale pending record for session A
and no active record, a completed stop (upstream call resolved) leaves
the stale pending record in the store; and when the upstream stop call
rejects, even the active record survives.  In both cases the session
store still holds a record for the id after stop. -/
theorem stopStream_leaves_stale_pending :
    storeGet "A" ((stopStream "A" true true preparedStateA).1).pendingSessions
      = some (pendingInfoOf reqPrepA 7) ∧
    storeHas "A" ((stopStream "A" false true activeStateA).1).ongoingSessions = true := by
  exact ⟨by decide, by decide⟩

/-- C1 as amended: after a stop whose upstream call resolved, the
ongoing map holds no record for the id (also when no active record
existed), the pending map is untouched, a stop whose upstream call
rejected changes nothing, and a second completed stop leaves exactly
the final state of the first. -/
theorem stopStream_active_removal_only (sessionId : String) (hasCallback : Bool)
    (st : DelegateState) :
    storeGet sessionId ((stopStream sessionId true hasCallback st).1).ongoingSessions = none ∧
    ((stopStream sessionId true hasCallback st).1).pendingSessions = st.pendingSessions ∧
    (stopStream sessionId false hasCallback st).1 = st ∧
    (stopStream sessionId true hasCallback
        ((stopStream sessionId true hasCallback st).1)).1
      = (stopStream sessionId true hasCallback st).1 := by
  refine ⟨?_, rfl, rfl, ?_⟩
  · simp [stopStream, storeGet_storeDel_self]
  · simp [stopStream, storeDel_storeDel, storeGet_storeDel_self]

/-- Counterexample to C2: when the upstream startLiveFeed call rejects,
the pending record for the session id is not cleared and no callback
of any kind is invoked (the promise chain has no rejection handler),
contradicting the claimed single error callback and cleared pending
record. -/
theorem startStream_rejected_counterexample :
    storeGet "A"
        ((startStream defaultVideoConfig reqStartA UpstreamResult.rejected
          preparedStateA).1).pendingSessions
      = some (pendingInfoOf reqPrepA 7) ∧
    countCallbackErrors
        (startStream defaultVideoConfig reqStartA UpstreamResult.rejected preparedStateA).2
      = 0 := by
  constructor
  · decide
  · decide

/-- C2 as amended: if the upstream startLiveFeed call rejects during
start, nothing beyond the upstream request happens: the state is
unchanged (so no active session is created and the pending record
remains) and the stream-start callback is never invoked. -/
theorem startStream_upstream_rejected_silent (cfg : VideoConfig) (req : StartStreamRequest)
    (st : DelegateState) :
    startStream cfg req UpstreamResult.rejected st = (st, [Effect.upstreamStartFeed]) := rfl

/-- Counterexample to C3: starting a session id with no pending record
still issues the upstream start call, and no callback error is ever
signalled, contradicting the claimed UnknownSession signal and the
claim that nothing is launched. -/
theorem startStream_unknown_session_counterexample :
    (startStream defaultVideoConfig reqStartA (UpstreamResult.resolved "rtsp://cam/live")
        initialDelegateState).2
      = [Effect.upstreamStartFeed] ∧
    countCallbackErrors
        (startStream defaultVideoConfig reqStartA (UpstreamResult.resolved "rtsp://cam/live")
          initialDelegateState).2
      = 0 := by
  constructor
  · decide
  · decide

/-- C3 as amended: for a start whose session id has no pending record,
the upstream start call is still issued; when it resolves, the
continuation dereferences a field of undefined and aborts, so the
store is unchanged, no active session is created, and no error is
signalled to the callback. -/
theorem startStream_unknown_session_behavior (cfg : VideoConfig) (req : StartStreamRequest)
    (url : String) (st : DelegateState)
    (habs : storeGet req.sessionID st.pendingSessions = none) :
    startStream cfg req (UpstreamResult.resolved url) st = (st, [Effect.upstreamStartFeed]) := by
  simp [startStream, startStreamContinuation, habs]

/-- Witness for C3 as amended, at the empty store. -/
theorem startStream_unknown_session_behavior_witness :
    startStream defaultVideoConfig reqStartA (UpstreamResult.resolved "rtsp://cam/live")
        initialDelegateState
      = (initialDelegateState, [Effect.upstreamStartFeed]) :=
  startStream_unknown_session_behavior defaultVideoConfig reqStartA "rtsp://cam/live"
    initialDelegateState (by decide)

theorem wdRun_aux (T : ℚ) : ∀ (ts : List ℚ) (a : ℚ) (n : Nat),
    List.Chain' (fun x y => y - x < T) (a :: ts) →
    (ts.foldl (wdStep T) { deadline := some (a + T), forceStops := n }).forceStops = n ∧
    ∃ b : ℚ, (ts.foldl (wdStep T) { deadline := some (a + T), forceStops := n }).deadline
      = some (b + T) := by
  intro ts
  induction ts with
  | nil => exact fun a n _ => ⟨rfl, a, rfl⟩
  | cons b rest ih =>
    intro a n hch
    rw [List.chain'_cons] at hch
    have hnle : ¬(a + T ≤ b) := by
      have := hch.1
      intro hle
      linarith
    have hstep : wdStep T { deadline := some (a + T), forceStops := n } b
        = { deadline := some (b + T), forceStops := n } := by
      simp [wdStep, hnle]
    rw [List.foldl_cons, hstep]
    exact ih b n hch.2

/-- C5: for every active session, each inbound watchdog datagram
cancels the pending inactivity timer and arms a new one expiring after
two times the request rtcp interval (a value in seconds) converted to
milliseconds; a fired timer issues exactly one force-termination
request; datagrams whose consecutive gaps stay below the timeout
postpone force-termination for the whole trace, and once datagrams
cease, exactly one force-termination request is ever issued. -/
theorem watchdog_inactivity_policy (r : ℚ) (arrivals : List ℚ)
    (hgap : List.Chain' (fun a b => b - a < inactivityTimeoutMs r) arrivals) :
    (wdRun (inactivityTimeoutMs r) arrivals).forceStops = 0 ∧
    (arrivals ≠ [] → wdTotalForceStops (inactivityTimeoutMs r) arrivals = 1) ∧
    (∀ st t, (wdStep (inactivityTimeoutMs r) st t).deadline = some (t + r * 2 * 1000)) ∧
    (∀ d n t, d ≤ t →
      wdStep (inactivityTimeoutMs r) { deadline := some d, forceStops := n } t
        = { deadline := some (t + inactivityTimeoutMs r), forceStops := n + 1 }) := by
  refine ⟨?_, ?_, ?_, ?_⟩
  · cases arrivals with
    | nil => rfl
    | cons a ts =>
      have h0 : wdStep (inactivityTimeoutMs r) watchdogInit a
          = { deadline := some (a + inactivityTimeoutMs r), forceStops := 0 } := rfl
      have := (wdRun_aux (inactivityTimeoutMs r) ts a 0 hgap).1
      simpa [wdRun, watchdogInit, h0] using this
  · intro hne
    cases arrivals with
    | nil => exact absurd rfl hne
    | cons a ts =>
      have h0 : wdStep (inactivityTimeoutMs r) watchdogInit a
          = { deadline := some (a + inactivityTimeoutMs r), forceStops := 0 } := rfl
      have haux := wdRun_aux (inactivityTimeoutMs r) ts a 0 hgap
      obtain ⟨b, hb⟩ := haux.2
      have hrun : wdRun (inactivityTimeoutMs r) (a :: ts)
          = ts.foldl (wdStep (inactivityTimeoutMs r))
              { deadline := some (a + inactivityTimeoutMs r), forceStops := 0 } := rfl
      simp [wdTotalForceStops, hrun, haux.1, hb]
  · intro st t
    cases h : st.deadline with
    | none => simp [wdStep, h, inactivityTimeoutMs]
    | some d => simp [wdStep, h, inactivityTimeoutMs, apply_ite WatchdogState.deadline]
  · intro d n t hle
    simp [wdStep, hle]

/-- Witness for C5: with an rtcp interval of one half second the
timeout is 1000 milliseconds; datagrams at 0, 500 and 999 milliseconds
postpone every force stop, and once they cease exactly one force stop
is issued. -/
theorem watchdog_inactivity_policy_witness :
    (wdRun (inactivityTimeoutMs (1 / 2)) [0, 500, 999]).forceStops = 0 ∧
    wdTotalForceStops (inactivityTimeoutMs (1 / 2)) [0, 500, 999] = 1 := by
  have h := watchdog_inactivity_policy (1 / 2) [0, 500, 999]
    (by norm_num [List.chain'_cons, inactivityTimeoutMs])
  exact ⟨h.1, h.2.1 (by simp)⟩

/-- C6 (code bug): a session negotiated over IPv6 still gets its
watchdog socket created with udp4, bound to an undefined port and
address, because prepareStream never stores the ipv6 flag, the video
return port or the local address that startStream reads. -/
theorem watchdog_socket_family_bug :
    reqPrepA6.addressVersion = AddressVersion.ipv6 ∧
    outcomeSocket
        (startStreamContinuation defaultVideoConfig reqStartA "rtsp://cam/live"
          preparedStateA6).2
      = some { family := UdpFamily.udp4, bindPort := none, bindAddress := none } := by
  exact ⟨rfl, rfl⟩

/-- Whether the first list occurs contiguously inside the second. -/
def containsSub (p : List Char) : List Char → Bool
  | [] => p.isEmpty
  | c :: rest => p.isPrefixOf (c :: rest) || containsSub p rest

/-- The start request of the fixtures with the mtu field replaced. -/
def reqStartA9999 : StartStreamRequest :=
  { reqStartA with video := { reqStartA.video with mtu := 9999 } }

set_option maxRecDepth 40000 in
/-- Counterexample to C7: two start requests that differ only in the
requested mtu produce the identical argument string, and that string
carries the packet size 1316, not the requested mtu of 1378. -/
theorem ffmpegArgs_mtu_counterexample :
    ffmpegArgs defaultVideoConfig "rtsp://cam/live" (pendingInfoOf reqPrepA 7) reqStartA
      = ffmpegArgs defaultVideoConfig "rtsp://cam/live" (pendingInfoOf reqPrepA 7)
          reqStartA9999 ∧
    reqStartA.video.mtu = 1378 ∧
    reqStartA9999.video.mtu = 9999 ∧
    containsSub "&pkt_size=1316".data
      (ffmpegArgs defaultVideoConfig "rtsp://cam/live" (pendingInfoOf reqPrepA 7)
        reqStartA).data = true ∧
    containsSub "&pkt_size=1378".data
      (ffmpegArgs defaultVideoConfig "rtsp://cam/live" (pendingInfoOf reqPrepA 7)
        reqStartA).data = false := by
  refine ⟨rfl, rfl, rfl, by decide, by decide⟩

/-- C7 as amended: the packet size of the outbound transport
description is the constant 1316 for every launched stream; the
request mtu field is never read, so changing it leaves the subprocess
argument string unchanged. -/
theorem ffmpegArgs_mtu_constant (cfg : VideoConfig) (url : String) (info : SessionInfo)
    (req : StartStreamRequest) (m : Nat) :
    ffmpegArgs cfg url info { req with video := { req.video with mtu := m } }
      = ffmpegArgs cfg url info req ∧
    ∃ pre post : List Char,
      (ffmpegArgs cfg url info req).data
        = pre ++ (("&pkt_size=" ++ toString mtuConst).data ++ post) := by
  constructor
  · cases req with
    | mk sid v a => cases v; rfl
  · refine ⟨(videoArgsSection cfg url req.video ++ (" -ssrc " ++ optNatStr info.videoSSRC ++
      " -f rtp" ++ " -srtp_out_suite AES_CM_128_HMAC_SHA1_80" ++ " -srtp_out_params " ++
      optBufBase64 info.videoSRTP ++ " srtp://" ++ optStr info.address ++ ":" ++
      optNatStr info.videoPort ++ "?rtcpport=" ++ optNatStr info.videoPort)).data,
      (audioArgsSection cfg info req.audio ++ debugArgsSection cfg).data, ?_⟩
    simp [ffmpegArgs, videoStreamSection, String.data_append, List.append_assoc]

/-- The SRTP output suite flag hard-coded at platform.ts line 747. -/
def srtpSuiteArgToken : String := " -srtp_out_suite AES_CM_128_HMAC_SHA1_80"

/-- C10: the subprocess argument string fixes the SRTP output suite to
the constant AES_CM_128_HMAC_SHA1_80, and two launches whose pending
records differ only in the negotiated crypto suite produce identical
argument strings, since the stored videoCryptoSuite field is never
read during launch. -/
theorem ffmpegArgs_suite_constant (cfg : VideoConfig) (url : String) (info : SessionInfo)
    (req : StartStreamRequest) (suiteA suiteB : Option Nat) :
    ffmpegArgs cfg url { info with videoCryptoSuite := suiteA } req
      = ffmpegArgs cfg url { info with videoCryptoSuite := suiteB } req ∧
    ∃ pre post : List Char,
      (ffmpegArgs cfg url info req).data = pre ++ (srtpSuiteArgToken.data ++ post) := by
  constructor
  · cases info; rfl
  · refine ⟨(videoArgsSection cfg url req.video ++ (" -ssrc " ++ optNatStr info.videoSSRC ++
      " -f rtp")).data,
      ((" -srtp_out_params " ++ optBufBase64 info.videoSRTP ++ " srtp://" ++
        optStr info.address ++ ":" ++ optNatStr info.videoPort ++ "?rtcpport=" ++
        optNatStr info.videoPort ++ "&pkt_size=" ++ toString mtuConst) ++
       (audioArgsSection cfg info req.audio ++ debugArgsSection cfg)).data, ?_⟩
    simp [ffmpegArgs, videoStreamSection, srtpSuiteArgToken, String.data_append,
      List.append_assoc]

/-- The trace that breaks the exclusivity claim: prepare, completed
start, then a second prepare for the same session id while it is
active. -/
def coexistTrace : List Ev :=
  [Ev.prepare reqPrepA 7 "192.168.1.2",
   Ev.startBody defaultVideoConfig reqStartA "rtsp://cam/live",
   Ev.prepare reqPrepA 8 "192.168.1.2"]

set_option maxRecDepth 40000 in
/-- Counterexample to C9: after prepare A, a completed start of A and
a second prepare of A, session id A is a key of both the pending and
the ongoing store at an observable point between event-loop tasks. -/
theorem session_stores_coexist_counterexample :
    storeHas "A" (runEvents coexistTrace).pendingSessions = true ∧
    storeHas "A" (runEvents coexistTrace).ongoingSessions = true := by
  exact ⟨by decide, by decide⟩

theorem stepEv_preserves_exclusive (st : DelegateState) (e : Ev)
    (hex : exclusiveKeys st) (hg : prepareGuard st e = true) :
    exclusiveKeys (stepEv st e) := by
  cases e with
  | prepare req ssrc addr =>
    intro sid
    by_cases hsid : sid = req.sessionID
    · subst hsid
      right
      have hfalse : storeHas req.sessionID st.ongoingSessions = false := by
        simpa [prepareGuard] using hg
      simpa [stepEv, prepareStream] using hfalse
    · rcases hex sid with h | h
      · left
        simpa [stepEv, prepareStream, storeHas_storeSet_ne req.sessionID sid _ hsid] using h
      · right
        simpa [stepEv, prepareStream] using h
  | startBody cfg req url =>
    intro sid
    cases hpend : storeGet req.sessionID st.pendingSessions with
    | none =>
      have hstep : stepEv st (Ev.startBody cfg req url) = st := by
        simp [stepEv, startStreamContinuation, hpend]
      rw [hstep]
      exact hex sid
    | some info =>
      by_cases hsid : sid = req.sessionID
      · subst hsid
        left
        simp [stepEv, startStreamContinuation, hpend, storeHas_storeDel_self]
      · rcases hex sid with h | h
        · left
          simpa [stepEv, startStreamContinuation, hpend,
            storeHas_storeDel_ne req.sessionID sid hsid] using h
        · right
          simpa [stepEv, startStreamContinuation, hpend,
            storeHas_storeSet_ne req.sessionID sid _ hsid] using h
  | stopOk sessionId =>
    intro sid
    by_cases hsid : sid = sessionId
    · subst hsid
      right
      simp [stepEv, stopStream, storeHas_storeDel_self]
    · rcases hex sid with h | h
      · left
        simpa [stepEv, stopStream] using h
      · right
        simpa [stepEv, stopStream, storeHas_storeDel_ne sessionId sid hsid] using h

theorem foldl_guarded_exclusive : ∀ (evs : List Ev) (st : DelegateState),
    exclusiveKeys st → guardedTrace st evs = true →
    exclusiveKeys (evs.foldl stepEv st) := by
  intro evs
  induction evs with
  | nil => exact fun st hex _ => hex
  | cons e rest ih =>
    intro st hex hg
    simp only [guardedTrace, Bool.and_eq_true] at hg
    exact ih (stepEv st e) (stepEv_preserves_exclusive st e hex hg.1) hg.2

/-- C9 as amended: along every trace of completed prepare, start and
stop tasks in which no prepare runs for a session id currently in the
ongoing store, every session id is a key of at most one of the two
stores at every observable point. -/
theorem session_stores_exclusive_guarded (evs : List Ev)
    (hg : guardedTrace initialDelegateState evs = true) :
    exclusiveKeys (runEvents evs) := by
  have hex0 : exclusiveKeys initialDelegateState := fun _ => Or.inl rfl
  exact foldl_guarded_exclusive evs initialDelegateState hex0 hg

/-- A guarded trace: prepare, completed start, stop. -/
def guardedTraceExample : List Ev :=
  [Ev.prepare reqPrepA 7 "192.168.1.2",
   Ev.startBody defaultVideoConfig reqStartA "rtsp://cam/live",
   Ev.stopOk "A"]

set_option maxRecDepth 40000 in
/-- Witness for C9 as amended, on a full prepare, start, stop cycle. -/
theorem session_stores_exclusive_guarded_witness :
    exclusiveKeys (runEvents guardedTraceExample) :=
  session_stores_exclusive_guarded guardedTraceExample (by decide)
